import Mathlib

/-!
Verification of `src/scripts/pr-review-agent.mjs` (with the identical
environment-validation prologue of `src/unnamed/part_000`): a PR review
agent that validates its environment, propagates the platform credential,
starts one agent session and logs the session's event stream.

The JavaScript is embedded shallowly:

* environment variables (`process.env.X`) are `Option String`; JavaScript
  falsiness of such a value (absent or `""`) is `falsy`;
* the session events streamed by the agent runtime are the tagged variant
  `SessionEvent`, mirroring the `message.type` / `message.subtype` dispatch
  of the `for await` loop; a message whose type matches no branch of the
  loop is `otherEvent`;
* `total_cost_usd` is carried in units of 10^-4 USD so that the source's
  `toFixed(4)` rendering is exact (`toFixed4`);
* a `tool_use` content block's `input` is an arbitrary JSON object in the
  source, used only through `JSON.stringify(content.input, null, 2)`; it is
  modelled by that rendered string;
* each `console.log` / `console.error` call is one diagnostics entry;
* the whole script run is the action trace `mainTrace`: environment writes,
  log lines, the `query(...)` call (`sessionStart`) and explicit
  `process.exit` calls, in source order.  A run that falls off the end of
  the script exits with status 0; in the embedding every streamed event is
  a well-typed `SessionEvent` and all handlers are total, so the `catch`
  of `runAgent` (which would `process.exit(1)`) never fires.
-/

/-- A JavaScript string-or-undefined value as read from `process.env`. -/
abbrev JSVal := Option String

/-- JavaScript falsiness of a string-or-undefined value: `undefined` and the
empty string are falsy (`!ANTHROPIC_API_KEY` etc. in the source). -/
def falsy : JSVal → Bool
  | none => true
  | some s => s == ""

/-- Template-literal interpolation of a possibly-undefined JavaScript string:
interpolating `undefined` produces the text "undefined". -/
def jsInterp : JSVal → String
  | none => "undefined"
  | some s => s

/-- The environment variables the script reads (lines 11-15 of the source). -/
structure Env where
  anthropicApiKey : JSVal
  githubToken : JSVal
  githubRepository : JSVal
  prNumber : JSVal
  headSha : JSVal
  deriving DecidableEq

/-- JavaScript `String.prototype.split` with a one-character separator, on
the character list: splitting the empty string gives `[[]]` (JavaScript
`"".split("/")` is `[""]`), and each separator occurrence ends a piece. -/
def splitOnChar (sep : Char) : List Char → List (List Char)
  | [] => [[]]
  | c :: cs =>
    if c == sep then [] :: splitOnChar sep cs
    else
      match splitOnChar sep cs with
      | [] => [[c]]
      | piece :: pieces => (c :: piece) :: pieces

/-- JavaScript `s.split(sep)` for a one-character separator. -/
def jsSplit (s : String) (sep : Char) : List String :=
  (splitOnChar sep s.data).map fun cs => String.mk cs

/-- JavaScript `GITHUB_REPOSITORY.split("/")` destructured as
`[owner, repo]` (source line 32): `owner` is the first piece (`split` never
returns an empty array), `repo` is the second piece when there is one and
`undefined` otherwise. -/
def splitOwnerRepo (s : String) : String × Option String :=
  ((jsSplit s '/').headD "", (jsSplit s '/')[1]?)

/-- One content block of an `assistant` message (`message.message.content`).
A block whose `type` is neither "text" nor "tool_use" matches no branch of
the inner loop and is `otherContent`.  A `tool_use` block's `input` is
modelled by its `JSON.stringify(input, null, 2)` rendering, the only use the
script makes of it. -/
inductive ContentBlock where
  | text (body : String)
  | toolUse (name : String) (inputJson : String)
  | otherContent
  deriving DecidableEq

/-- One streamed session event, mirroring the `message.type` dispatch of the
`for await` loop.  `result` carries `subtype` as the string the source
compares against ("success", "error_max_turns", "error_during_execution" or
anything else), the cost in units of 10^-4 USD, and the length of
`permission_denials` (absent modelled as 0, matching the
`message.permission_denials && length > 0` guard).  `systemInit` is a
"system" message with subtype "init"; any other message type (or a "system"
message with another subtype) matches no branch and is `otherEvent`. -/
inductive SessionEvent where
  | assistant (content : List ContentBlock)
  | result (subtype : String) (durationMs : Nat) (numTurns : Nat)
      (totalCostUsdE4 : Nat) (resultText : String) (permissionDenialCount : Nat)
  | systemInit (model : String) (cwd : String) (tools : List String)
      (mcpServerNames : List String)
  | otherEvent (tag : String)
  deriving DecidableEq

/-- Four decimal digits with leading zeros: the fractional part of
`toFixed(4)`. -/
def pad4 (n : Nat) : String :=
  if n < 10 then "000" ++ toString n
  else if n < 100 then "00" ++ toString n
  else if n < 1000 then "0" ++ toString n
  else toString n

/-- JavaScript `x.toFixed(4)` for a cost carried in units of 10^-4 USD. -/
def toFixed4 (c : Nat) : String :=
  toString (c / 10000) ++ "." ++ pad4 (c % 10000)

/-- JavaScript `mcp_servers.map((s) => s.name).join(", ") || "none"` (source
line 163): the joined names, or "none" when the join is empty (falsy). -/
def joinOrNone (names : List String) : String :=
  if String.intercalate ", " names == "" then "none" else String.intercalate ", " names

/-- The log lines the inner content loop produces for one content block
(source lines 132-138): a "text" block is one `console.log`; a "tool_use"
block is two (`[Tool Use] name`, then the stringified input); any other
block type matches no branch and logs nothing. -/
def logContent : ContentBlock → List String
  | .text body => ["\n[Assistant] " ++ body ++ "\n"]
  | .toolUse name inputJson => ["\n[Tool Use] " ++ name, inputJson]
  | .otherContent => []

/-- The log lines the `for await` loop body produces for one event (source
lines 130-164): the `assistant` branch logs each content block in order; the
`result` branch logs the summary block, then one line chosen by `subtype`,
then the permission-denial line when the count is positive; the
`system`/`init` branch logs the five initialization lines; an event matched
by no branch logs nothing. -/
def logEvent : SessionEvent → List String
  | .assistant content => content.foldl (fun acc c => acc ++ logContent c) []
  | .result subtype durationMs numTurns totalCostUsdE4 resultText permissionDenialCount =>
      ["\n=== Review Completed ===",
       "Duration: " ++ toString durationMs ++ "ms",
       "Turns: " ++ toString numTurns,
       "Cost: $" ++ toFixed4 totalCostUsdE4,
       "Status: " ++ subtype]
      ++ (if subtype == "success" then
            ["\nResult: " ++ resultText]
          else if subtype == "error_max_turns" then
            ["\n⚠️ Review reached maximum turns limit"]
          else if subtype == "error_during_execution" then
            ["\n❌ Error occurred during review execution"]
          else [])
      ++ (if 0 < permissionDenialCount then
            ["\n⚠️ Permission denials: " ++ toString permissionDenialCount]
          else [])
  | .systemInit model cwd tools mcpServerNames =>
      ["[System] Initialized",
       "  Model: " ++ model,
       "  Working Directory: " ++ cwd,
       "  Tools: " ++ String.intercalate ", " tools,
       "  MCP Servers: " ++ joinOrNone mcpServerNames]
  | .otherEvent _ => []

/-- The diagnostics the `for await` loop accumulates over a finite stream:
the loop processes one event, appends its lines, and continues with the rest
of the stream. -/
def classifierRun : List SessionEvent → List String
  | [] => []
  | e :: es => logEvent e ++ classifierRun es

/-- Observable result of one `runAgent()` call: the ordered diagnostics log
and the process exit status. -/
structure RunResult where
  log : List String
  exitCode : Nat
  deriving DecidableEq

/-- The body of `runAgent` (source lines 112-172) on a finite event stream:
the banner before the loop, the loop's diagnostics, and the success line
after the loop.  The `catch` (which logs "Fatal error" and exits 1) fires
only when an exception escapes; with well-typed events and total handlers it
never does, so the process ends with the implicit exit status 0. -/
def runAgent (events : List SessionEvent) : RunResult :=
  { log := "\n=== Starting PR Review ===\n"
             :: classifierRun events ++ ["\n✓ PR Review Agent completed successfully"]
    exitCode := 0 }

/-- One observable action of the whole script run, in source order: an
operator-facing `console.log`, a `console.error`, a write to the execution
environment (`process.env.GH_TOKEN = ...`), the single `query(...)` call
that starts the agent session (carrying its prompt and system prompt), or an
explicit `process.exit`. -/
inductive ProgAction where
  | logLine (s : String)
  | logError (s : String)
  | envWrite (key : String) (value : String)
  | sessionStart (prompt : String) (sysPrompt : String)
  | exitProc (code : Nat)
  deriving DecidableEq

/-- The `SYSTEM_PROMPT` template literal (source lines 40-109), rendered
line by line; `owner`, `repo`, `PR_NUMBER` and `HEAD_SHA` are interpolated
where the source does, `repo` through the JavaScript rendering of a
possibly-undefined value. -/
def SYSTEM_PROMPT (owner : String) (repo : Option String) (prNumber headSha : String) :
    String :=
  String.intercalate "\n"
    ["You are an expert code reviewer for the Cline project - an AI-powered coding assistant built as a VSCode extension.",
     "",
     "Your role is to autonomously review pull requests by:",
     "1. Understanding what changed and why",
     "2. Identifying bugs, security issues, and code quality problems",
     "3. Checking architectural decisions and design patterns",
     "4. Ensuring code follows best practices",
     "5. Navigating the codebase to understand context when needed",
     "",
     "Technical context about Cline:",
     "- TypeScript/JavaScript codebase with VSCode extension",
     "- Uses gRPC and Protocol Buffers for communication",
     "- Has a React webview UI",
     "- Integrates with various AI providers (Anthropic, OpenAI, etc.)",
     "- Uses Model Context Protocol (MCP) for extensibility",
     "",
     "Available tools you can use:",
     "- Bash: Execute gh CLI commands to interact with GitHub",
     "- Read: Read files from the repository",
     "- Grep: Search through code",
     "- Glob: Find files matching patterns",
     "- Write: Create temporary files if needed",
     "",
     "GitHub CLI commands you'll need:",
     "- Get PR diff: gh api repos/" ++ owner ++ "/" ++ jsInterp repo ++ "/pulls/" ++ prNumber ++ "/files",
     "- Get changed files: gh api repos/" ++ owner ++ "/" ++ jsInterp repo ++ "/pulls/" ++ prNumber ++ "/files",
     "- Post inline comment: gh api repos/" ++ owner ++ "/" ++ jsInterp repo ++ "/pulls/" ++ prNumber ++ "/reviews --method POST --input <file>",
     "- Post review summary: gh pr review " ++ prNumber ++ " --repo " ++ owner ++ "/" ++ jsInterp repo ++ " [--approve|--request-changes|--comment] --body \"...\"",
     "",
     "Review approach:",
     "1. Start by using Bash to run: gh api repos/" ++ owner ++ "/" ++ jsInterp repo ++ "/pulls/" ++ prNumber ++ "/files",
     "   This will show you all changed files and their diffs",
     "2. For each changed file, understand what it does by reading the full file if needed (use Read tool)",
     "3. Navigate to related files to understand the broader context",
     "4. Use your AI intelligence to identify:",
     "   - Logic errors and bugs",
     "   - Security vulnerabilities (SQL injection, XSS, credential leaks, etc.)",
     "   - Race conditions and concurrency issues",
     "   - Memory leaks and resource management issues",
     "   - Breaking API changes",
     "   - Missing error handling",
     "   - Poor code organization or unclear logic",
     "   - Performance issues",
     "   - Accessibility problems (for UI code)",
     "5. Post specific inline comments on lines that need attention using gh CLI",
     "   For inline comments, create a JSON file with this structure:",
     "   \x7b",
     "     \"commit_id\": \"" ++ headSha ++ "\",",
     "     \"event\": \"COMMENT\",",
     "     \"comments\": [\x7b\"path\": \"...\", \"line\": N, \"side\": \"RIGHT\", \"body\": \"...\"\x7d]",
     "   \x7d",
     "   Save to /tmp/review-<timestamp>.json and use:",
     "   gh api repos/" ++ owner ++ "/" ++ jsInterp repo ++ "/pulls/" ++ prNumber ++ "/reviews --method POST --input /tmp/review-<timestamp>.json",
     "6. Provide an overall review summary at the end using:",
     "   gh pr review " ++ prNumber ++ " --repo " ++ owner ++ "/" ++ jsInterp repo ++ " [--approve|--request-changes|--comment] --body \"...\"",
     "",
     "Guidelines:",
     "- Focus on meaningful issues that could cause real problems",
     "- Be constructive and specific in your feedback",
     "- Suggest concrete fixes when possible",
     "- Don't nitpick style unless it affects readability",
     "- If something is unclear, read more files to understand context",
     "- Consider the full impact of changes, not just local effects",
     "",
     "When you're done reviewing, use gh pr review to post your final summary with:",
     "- --approve: No significant issues found",
     "- --comment: Minor issues that should be addressed but don't block merge",
     "- --request-changes: Serious issues that must be fixed before merge",
     "",
     "Begin by examining what changed in this PR using the gh CLI."]

/-- The user prompt passed to `query` (source line 115). -/
def promptText (prNumber githubRepository headSha : String) : String :=
  "Review pull request #" ++ prNumber ++ " for repository " ++ githubRepository
    ++ ". The PR is at commit " ++ headSha
    ++ ". Start by examining what changed using the gh CLI commands available to you."

/-- Whether some required environment input is absent or empty: the disjunction
of the three `if` guards of the validation prologue (source lines 17-30; the
prologue of `src/unnamed/part_000` lines 11-30 is identical). -/
def requiredMissing (env : Env) : Bool :=
  falsy env.anthropicApiKey || falsy env.githubToken
    || falsy env.githubRepository || falsy env.prNumber || falsy env.headSha

/-- The action trace of one whole script run on a finite event stream, in
source order: the three validation `if` blocks, each reporting and exiting 1
when its guard fires; then the `owner`/`repo` split, the `GH_TOKEN`
propagation (line 35), the "Starting AI-powered review" log (line 37), the
`query(...)` call inside `runAgent` (line 114) and the streamed run's log
lines. -/
def mainTrace (env : Env) (events : List SessionEvent) : List ProgAction :=
  if falsy env.anthropicApiKey then
    [.logError "Error: ANTHROPIC_API_KEY environment variable is required", .exitProc 1]
  else if falsy env.githubToken then
    [.logError "Error: GITHUB_TOKEN environment variable is required", .exitProc 1]
  else if falsy env.githubRepository || falsy env.prNumber || falsy env.headSha then
    [.logError "Error: GitHub environment variables missing", .exitProc 1]
  else
    .envWrite "GH_TOKEN" (jsInterp env.githubToken)
      :: .logLine ("Starting AI-powered review for " ++ jsInterp env.githubRepository
                     ++ "#" ++ jsInterp env.prNumber)
      :: .sessionStart
           (promptText (jsInterp env.prNumber) (jsInterp env.githubRepository)
             (jsInterp env.headSha))
           (SYSTEM_PROMPT (splitOwnerRepo (jsInterp env.githubRepository)).1
             (splitOwnerRepo (jsInterp env.githubRepository)).2
             (jsInterp env.prNumber) (jsInterp env.headSha))
      :: (runAgent events).log.map .logLine

/-- Whether an action is the session-starting `query(...)` call. -/
def isSessionStart : ProgAction → Bool
  | .sessionStart _ _ => true
  | _ => false

/-- Whether an action writes to the execution environment. -/
def isEnvWrite : ProgAction → Bool
  | .envWrite _ _ => true
  | _ => false

/-- How many times a trace starts an agent session. -/
def sessionStartCount (t : List ProgAction) : Nat :=
  (t.filter isSessionStart).length

/-- The explicit `process.exit` codes of a trace, in order. -/
def exitCodes (t : List ProgAction) : List Nat :=
  t.filterMap fun a => match a with
    | .exitProc c => some c
    | _ => none

/-- The exit status of a run with the given trace: the first explicit
`process.exit` code, or 0 when the script runs to its end. -/
def traceExitCode (t : List ProgAction) : Nat :=
  (exitCodes t).headD 0

/-- Boolean prefix test on character lists. -/
def charsPrefix : List Char → List Char → Bool
  | [], _ => true
  | _ :: _, [] => false
  | c :: cs, d :: ds => c == d && charsPrefix cs ds

/-- Boolean contiguous-occurrence test on character lists. -/
def charsInfix (pat : List Char) : List Char → Bool
  | [] => pat.isEmpty
  | c :: cs => charsPrefix pat (c :: cs) || charsInfix pat cs

/-- Boolean substring test: whether `pat` occurs contiguously in `s`. -/
def strContains (s pat : String) : Bool :=
  charsInfix pat.data s.data

/-- Whether an event is a terminal `result` message. -/
def isResult : SessionEvent → Bool
  | .result .. => true
  | _ => false

/-- A complete environment: every required input present and non-empty. -/
def envFull : Env :=
  { anthropicApiKey := some "key", githubToken := some "tok",
    githubRepository := some "octo/hello", prNumber := some "5",
    headSha := some "headsha" }

/-- An environment whose platform token is present but empty (falsy). -/
def envMissing : Env :=
  { anthropicApiKey := some "key", githubToken := some "",
    githubRepository := some "octo/hello", prNumber := some "5",
    headSha := some "headsha" }

/-- An environment whose repository identifier is non-empty but has no "/"
separator. -/
def envFoo : Env :=
  { anthropicApiKey := some "key", githubToken := some "tok",
    githubRepository := some "foo", prNumber := some "7",
    headSha := some "abc" }

/-- The concrete event sequence of the spec's success scenario. -/
def c6Events : List SessionEvent :=
  [.systemInit "m1" "/workspace" ["Bash", "Read"] [],
   .assistant [.text "Checking diff", .toolUse "Bash" "\x7b\n  \"cmd\": \"gh api ...\"\n\x7d"],
   .result "success" 4200 3 1200 "Approved, no issues" 0]

/-- A stream that closes after a `SystemInit` and two `Assistant` events,
with no `Result` ever emitted. -/
def c2Events : List SessionEvent :=
  [.systemInit "m1" "/workspace" ["Bash", "Read"] [],
   .assistant [.text "looking at the diff"],
   .assistant [.text "posting comments"]]

/-- Appending event streams concatenates their diagnostics. -/
theorem classifierRun_append (a b : List SessionEvent) :
    classifierRun (a ++ b) = classifierRun a ++ classifierRun b := by
  induction a with
  | nil => simp [classifierRun]
  | cons e es ih => simp [classifierRun, ih]

/-- Operator log lines are not session starts. -/
theorem filter_sessionStart_map_logLine (l : List String) :
    (l.map ProgAction.logLine).filter isSessionStart = [] := by
  induction l with
  | nil => rfl
  | cons s ss ih => simp [List.filter_cons, isSessionStart, ih]

/-- Operator log lines are not environment writes. -/
theorem filter_envWrite_map_logLine (l : List String) :
    (l.map ProgAction.logLine).filter isEnvWrite = [] := by
  induction l with
  | nil => rfl
  | cons s ss ih => simp [List.filter_cons, isEnvWrite, ih]

/-- Operator log lines carry no explicit exit code. -/
theorem exitCodes_map_logLine (l : List String) :
    exitCodes (l.map ProgAction.logLine) = [] := by
  induction l with
  | nil => rfl
  | cons s ss ih => simp [exitCodes, List.filterMap_cons, ih]

/-- Shape of a whole run's trace: either some required input is falsy and the
run is one configuration-error report followed by `process.exit(1)`, or all
are present and the run is the credential write, the start log, the single
session start and the streamed run's log lines. -/
theorem mainTrace_spec (env : Env) (events : List SessionEvent) :
    (requiredMissing env = true ∧
      ∃ m, mainTrace env events = [ProgAction.logError m, ProgAction.exitProc 1])
    ∨ (requiredMissing env = false ∧
      mainTrace env events =
        ProgAction.envWrite "GH_TOKEN" (jsInterp env.githubToken)
          :: ProgAction.logLine ("Starting AI-powered review for "
               ++ jsInterp env.githubRepository ++ "#" ++ jsInterp env.prNumber)
          :: ProgAction.sessionStart
               (promptText (jsInterp env.prNumber) (jsInterp env.githubRepository)
                 (jsInterp env.headSha))
               (SYSTEM_PROMPT (splitOwnerRepo (jsInterp env.githubRepository)).1
                 (splitOwnerRepo (jsInterp env.githubRepository)).2
                 (jsInterp env.prNumber) (jsInterp env.headSha))
          :: (runAgent events).log.map ProgAction.logLine) := by
  unfold mainTrace requiredMissing
  split_ifs with h1 h2 h3
  · exact Or.inl ⟨by simp [h1], _, rfl⟩
  · exact Or.inl ⟨by simp [h1, h2], _, rfl⟩
  · exact Or.inl ⟨by simp [h1, h2, h3], _, rfl⟩
  · simp only [Bool.not_eq_true] at h1 h2 h3
    exact Or.inr ⟨by simp [h1, h2, h3], rfl⟩

/-- C1, counterexample: on the concrete stream ending in
`Result{error_max_turns}` the process exit code is 0 (the claim requires
non-zero) and no diagnostic line contains "turn limit" (the logged line says
"maximum turns limit"). -/
theorem maxTurns_exit_counterexample :
    (runAgent [SessionEvent.result "error_max_turns" 1000 25 500 "" 0]).exitCode = 0
    ∧ ((runAgent [SessionEvent.result "error_max_turns" 1000 25 500 "" 0]).log.all
        fun l => !(strContains l "turn limit")) = true := by
  constructor
  · rfl
  · decide

/-- C1, amended: for every event stream whose terminal event is
`Result{error_max_turns}`, the run logs the diagnostic note
"⚠️ Review reached maximum turns limit" — whose text contains "turns limit",
not "turn limit" — and the process exits with code 0: the turn-limit abort
is not reflected in the exit status. -/
theorem maxTurns_amended (pre : List SessionEvent)
    (durationMs numTurns totalCostUsdE4 permissionDenialCount : Nat) (resultText : String) :
    "\n⚠️ Review reached maximum turns limit" ∈
      (runAgent (pre ++ [.result "error_max_turns" durationMs numTurns totalCostUsdE4
        resultText permissionDenialCount])).log
    ∧ (runAgent (pre ++ [.result "error_max_turns" durationMs numTurns totalCostUsdE4
        resultText permissionDenialCount])).exitCode = 0 := by
  refine ⟨?_, rfl⟩
  simp [runAgent, classifierRun_append, classifierRun, logEvent]

/-- C2, counterexample: on the concrete stream that closes after a
`SystemInit` and two `Assistant` events with no `Result`, the process exit
code is 0 (the claim requires non-zero) and no diagnostic line contains
"stream ended without terminal result" (no such note exists in the
program). -/
theorem streamEnd_counterexample :
    (runAgent c2Events).exitCode = 0
    ∧ ((runAgent c2Events).log.all
        fun l => !(strContains l "stream ended without terminal result")) = true := by
  constructor
  · rfl
  · decide

/-- C2, amended: for every event stream that closes without emitting a
`Result` event, the loop simply ends: the run's last log line is
"✓ PR Review Agent completed successfully" and the process exits with
code 0 — the premature close yields no diagnostic note and no failure
signal. (The conclusion in fact holds for every finite stream.) -/
theorem streamEnd_amended (events : List SessionEvent)
    (_noResult : events.all (fun e => !isResult e) = true) :
    (runAgent events).exitCode = 0
    ∧ (runAgent events).log.getLast? = some "\n✓ PR Review Agent completed successfully" := by
  refine ⟨rfl, ?_⟩
  show (["\n=== Starting PR Review ===\n"]
          ++ (classifierRun events ++ ["\n✓ PR Review Agent completed successfully"])).getLast? = _
  rw [← List.append_assoc, List.getLast?_append_cons]
  rfl

/-- C2, witness for the amended theorem at the concrete result-free
stream. -/
theorem streamEnd_amended_witness :
    (runAgent c2Events).exitCode = 0
    ∧ (runAgent c2Events).log.getLast? = some "\n✓ PR Review Agent completed successfully" :=
  streamEnd_amended c2Events (by decide)

/-- C3, counterexample: processing a stream holding one event of an
unhandled kind produces a run identical to the empty stream's run — in
particular nothing about the malformed event is logged to diagnostics,
against the claim's "the fault is logged". -/
theorem malformedEvent_counterexample :
    runAgent [SessionEvent.otherEvent "malformed"] = runAgent [] := by decide

/-- C3, amended: an event whose kind matches no handler branch is skipped
silently — the run is identical to the run without it, so consumption of the
remaining stream continues and the session is not aborted, but no fault is
logged to diagnostics. -/
theorem malformedEvent_amended (pre post : List SessionEvent) (tag : String) :
    runAgent (pre ++ SessionEvent.otherEvent tag :: post) = runAgent (pre ++ post) := by
  simp [runAgent, classifierRun_append, classifierRun, logEvent]

/-- C4: whenever at least one required input (repository identifier, PR
number, head commit SHA, model-provider credential, platform access token)
is absent or empty, the run reports a configuration error and exits 1 with
no session started; when all are present and non-empty, validation passes
and exactly one session is started, with exit status 0. -/
theorem env_validation_gates_session (env : Env) (events : List SessionEvent) :
    (requiredMissing env = true →
      sessionStartCount (mainTrace env events) = 0
      ∧ traceExitCode (mainTrace env events) = 1
      ∧ ∃ m, ProgAction.logError m ∈ mainTrace env events)
    ∧ (requiredMissing env = false →
      sessionStartCount (mainTrace env events) = 1
      ∧ traceExitCode (mainTrace env events) = 0) := by
  rcases mainTrace_spec env events with ⟨hm, m, ht⟩ | ⟨hm, ht⟩
  · refine ⟨fun _ => ?_, fun hn => absurd hm (by simp [hn])⟩
    rw [ht]
    exact ⟨rfl, rfl, m, by simp⟩
  · refine ⟨fun hy => absurd hm (by simp [hy]), fun _ => ?_⟩
    constructor
    · rw [ht]
      simp [sessionStartCount, List.filter_cons, isSessionStart,
        filter_sessionStart_map_logLine]
    · have hz : exitCodes (mainTrace env events) = [] := by
        rw [ht]
        show exitCodes (List.map ProgAction.logLine (runAgent events).log) = []
        exact exitCodes_map_logLine _
      simp [traceExitCode, hz]

/-- C4, witness: with an empty platform token the run starts no session and
exits 1; with every input present it starts exactly one session. -/
theorem env_validation_witness :
    (sessionStartCount (mainTrace envMissing []) = 0
      ∧ traceExitCode (mainTrace envMissing []) = 1)
    ∧ sessionStartCount (mainTrace envFull []) = 1 :=
  ⟨⟨((env_validation_gates_session envMissing []).1 (by decide)).1,
    ((env_validation_gates_session envMissing []).1 (by decide)).2.1⟩,
   ((env_validation_gates_session envFull []).2 (by decide)).1⟩

/-- C5: feeding the classifier the same finite ordered event sequence twice
from a fresh accumulator yields identical diagnostics, and the classifier is
a pure fold over the stream whose accumulator is the diagnostics log. -/
theorem classifier_replay (events : List SessionEvent) :
    (runAgent events).log = (runAgent events).log
    ∧ classifierRun events = events.foldl (fun acc e => acc ++ logEvent e) [] := by
  refine ⟨rfl, ?_⟩
  have gen : ∀ (es : List SessionEvent) (acc : List String),
      es.foldl (fun acc e => acc ++ logEvent e) acc = acc ++ classifierRun es := by
    intro es
    induction es with
    | nil => intro acc; simp [classifierRun]
    | cons e es ih => intro acc; simp [classifierRun, List.foldl_cons, ih]
  simp [gen]

/-- C6: on the spec's concrete scenario — `SystemInit{m1, [Bash, Read], []}`,
an `Assistant` event with a text and a `Bash` tool invocation, then
`Result{success, 4200ms, 3 turns, $0.12, "Approved, no issues"}` — the run
takes the success path, its diagnostics hold the three events' entries in
arrival order, the reporter logs duration 4200ms, turns 3 and cost $0.12
(rendered "$0.1200" by `toFixed(4)`), and the exit code is 0. -/
theorem concrete_success_scenario :
    (runAgent c6Events).exitCode = 0
    ∧ (runAgent c6Events).log =
        ["\n=== Starting PR Review ===\n"]
        ++ ["[System] Initialized", "  Model: m1", "  Working Directory: /workspace",
            "  Tools: Bash, Read", "  MCP Servers: none"]
        ++ ["\n[Assistant] Checking diff\n", "\n[Tool Use] Bash",
            "\x7b\n  \"cmd\": \"gh api ...\"\n\x7d"]
        ++ ["\n=== Review Completed ===", "Duration: 4200ms", "Turns: 3",
            "Cost: $0.1200", "Status: success", "\nResult: Approved, no issues"]
        ++ ["\n✓ PR Review Agent completed successfully"]
    ∧ "Duration: 4200ms" ∈ (runAgent c6Events).log
    ∧ "Turns: 3" ∈ (runAgent c6Events).log
    ∧ "Cost: $0.1200" ∈ (runAgent c6Events).log
    ∧ strContains "Cost: $0.1200" "$0.12" = true
    ∧ "Status: success" ∈ (runAgent c6Events).log
    ∧ "\nResult: Approved, no issues" ∈ (runAgent c6Events).log := by
  refine ⟨rfl, by decide, ?_, ?_, ?_, by decide, ?_, ?_⟩ <;> decide

/-- C7: every write to the execution environment in a whole run's trace is
the single `GH_TOKEN` credential propagation, there is at most one such
write, and no environment write occurs at or after the session start — the
execution environment is read-only once the session has started. -/
theorem credential_propagation_before_start (env : Env) (events : List SessionEvent) :
    (∀ a ∈ mainTrace env events, isEnvWrite a = true →
      a = ProgAction.envWrite "GH_TOKEN" (jsInterp env.githubToken))
    ∧ ((mainTrace env events).filter isEnvWrite).length ≤ 1
    ∧ ((mainTrace env events).dropWhile (fun a => !isSessionStart a)).filter isEnvWrite
        = [] := by
  rcases mainTrace_spec env events with ⟨_, m, ht⟩ | ⟨_, ht⟩ <;> rw [ht]
  · refine ⟨?_, by simp [List.filter_cons, isEnvWrite], ?_⟩
    · intro a ha hw
      rcases List.mem_cons.mp ha with rfl | ha
      · simp [isEnvWrite] at hw
      · rcases List.mem_cons.mp ha with rfl | ha
        · simp [isEnvWrite] at hw
        · simp at ha
    · simp [List.dropWhile, isSessionStart]
  · refine ⟨?_, ?_, ?_⟩
    · intro a ha hw
      rcases List.mem_cons.mp ha with rfl | ha
      · rfl
      · rcases List.mem_cons.mp ha with rfl | ha
        · simp [isEnvWrite] at hw
        · rcases List.mem_cons.mp ha with rfl | ha
          · simp [isEnvWrite] at hw
          · rcases List.mem_map.mp ha with ⟨s, _, rfl⟩
            simp [isEnvWrite] at hw
    · simp [List.filter_cons, isEnvWrite, isSessionStart, filter_envWrite_map_logLine]
    · simp [List.dropWhile, isSessionStart, List.filter_cons, isEnvWrite,
        filter_envWrite_map_logLine]

/-- C7, witness: the frame conditions instantiated at a complete concrete
environment. -/
theorem credential_propagation_witness :
    ((mainTrace envFull []).filter isEnvWrite).length ≤ 1
    ∧ ((mainTrace envFull []).dropWhile (fun a => !isSessionStart a)).filter isEnvWrite
        = [] :=
  ⟨(credential_propagation_before_start envFull []).2.1,
   (credential_propagation_before_start envFull []).2.2⟩

/-- C8: one run starts the agent session exactly once when validation passes
and never otherwise — in every case at most one session per run, whatever
the stream holds and however the session terminates (no internal retry). -/
theorem at_most_one_session (env : Env) (events : List SessionEvent) :
    sessionStartCount (mainTrace env events)
        = (if requiredMissing env then 0 else 1)
    ∧ sessionStartCount (mainTrace env events) ≤ 1 := by
  have h : sessionStartCount (mainTrace env events)
      = (if requiredMissing env then 0 else 1) := by
    rcases mainTrace_spec env events with ⟨hm, m, ht⟩ | ⟨hm, ht⟩ <;> rw [ht, hm]
    · simp [sessionStartCount, List.filter_cons, isSessionStart]
    · simp [sessionStartCount, List.filter_cons, isSessionStart,
        filter_sessionStart_map_logLine]
  refine ⟨h, ?_⟩
  rw [h]
  split <;> decide

/-- C9: an `Assistant` event with zero segments is a legal no-op — it logs
nothing, and a run over a stream holding it is identical to the run over the
stream without it. -/
theorem emptyAssistant_noop (pre post : List SessionEvent) :
    logEvent (SessionEvent.assistant []) = []
    ∧ runAgent (pre ++ SessionEvent.assistant [] :: post) = runAgent (pre ++ post) := by
  refine ⟨rfl, ?_⟩
  simp [runAgent, classifierRun_append, classifierRun, logEvent]

/-- C10: with the repository identifier "foo" (non-empty, no "/" separator)
and the other inputs present, startup validation passes and one session is
started, yet the split yields an undefined repository-name component, so the
session's instruction text interpolates "undefined" into the gh API paths
("repos/foo/undefined/pulls/..."): the all-identity-fields-non-empty
invariant is not enforced by the validation. -/
theorem ownerRepo_split_unvalidated :
    requiredMissing envFoo = false
    ∧ splitOwnerRepo "foo" = ("foo", none)
    ∧ mainTrace envFoo [] =
        [ProgAction.envWrite "GH_TOKEN" "tok",
         ProgAction.logLine ("Starting AI-powered review for " ++ "foo" ++ "#" ++ "7"),
         ProgAction.sessionStart (promptText "7" "foo" "abc")
           (SYSTEM_PROMPT "foo" none "7" "abc"),
         ProgAction.logLine "\n=== Starting PR Review ===\n",
         ProgAction.logLine "\n✓ PR Review Agent completed successfully"]
    ∧ strContains (SYSTEM_PROMPT "foo" none "7" "abc") "repos/foo/undefined/pulls" = true := by
  have hsplit : splitOwnerRepo "foo" = ("foo", none) := by decide
  refine ⟨by decide, hsplit, ?_, ?_⟩
  · unfold mainTrace
    norm_num [envFoo, falsy, jsInterp, hsplit, runAgent, classifierRun]
    rw [if_neg (by decide), if_neg (by decide), if_neg (by decide)]
  · set_option maxRecDepth 40000 in decide
